import Mathlib

/-!
# Portalis npm distribution shim — verification development

Shallow embedding of the Portalis npm package's installer and launcher:

* `scripts/install.js` (postinstall hook): platform detection
  (`getPlatform`), binary extension selection (`getBinaryExtension`),
  redirect-following download (`downloadBinary`) and the overall
  `install` flow.
* `index.js` (Node entry point): spawns the installed binary and
  propagates its exit code (`indexJs`).
* `bin/portalis.cmd` (Windows wrapper script): existence check and
  delegation (`portalisCmd`).

Effects are made explicit: console output becomes lists of strings,
`process.exit` becomes an exit-code field, the destination file on disk
becomes an `Option (String × Nat)` (content and permission bits, `none`
when absent), and the network becomes an explicit trace of events — one
event per issued HTTP GET, in order.
-/

set_option autoImplicit false

namespace Portalis

/-! ## Installer data (scripts/install.js) -/

/-- `const REPO = 'portalis/portalis'`. -/
def REPO : String := "portalis/portalis"

/-- `const BINARY_NAME = 'portalis'`. -/
def BINARY_NAME : String := "portalis"

/-- The hardcoded `PLATFORM_MAP` object: platform key
(`process.platform`-`process.arch`) to release-asset suffix, in the
source's insertion order (JavaScript objects with string keys preserve
insertion order, so `Object.keys` enumerates in this order). -/
def PLATFORM_MAP : List (String × String) :=
  [("darwin-x64", "macos-x86_64"),
   ("darwin-arm64", "macos-aarch64"),
   ("linux-x64", "linux-x86_64"),
   ("linux-arm64", "linux-aarch64"),
   ("win32-x64", "windows-x86_64")]

/-- `PLATFORM_MAP[key]`: property lookup on the mapping object. -/
def lookupPlatform (key : String) : Option String :=
  (PLATFORM_MAP.find? (fun p => p.1 = key)).map Prod.snd

/-- A `process.exit(code)` call together with the `console.error` lines
printed before it. -/
structure ProcExit where
  code : Nat
  messages : List String
  deriving Repr, DecidableEq

/-- The `console.error` lines printed by `getPlatform` for an
unsupported platform key, in program order: the unsupported-platform
banner, the full supported-platform list, and the build-from-source
instructions. -/
def unsupportedMessages (ptype arch : String) : List String :=
  ["⚠️  Unsupported platform: " ++ ptype ++ "-" ++ arch,
   "Supported platforms:"] ++
  PLATFORM_MAP.map (fun p => "  - " ++ p.1) ++
  ["\nYou can build from source:",
   "  git clone https://github.com/portalis/portalis.git",
   "  cd portalis",
   "  cargo build --release --bin portalis"]

/-- `getPlatform()` from scripts/install.js: build the key
`process.platform + '-' + process.arch`, look it up in `PLATFORM_MAP`;
on a hit return the suffix, otherwise print the unsupported-platform
guidance and call `process.exit(1)`. -/
def getPlatform (ptype arch : String) : Except ProcExit String :=
  let key := ptype ++ "-" ++ arch
  match lookupPlatform key with
  | some platform => Except.ok platform
  | none => Except.error ⟨1, unsupportedMessages ptype arch⟩

/-- `getBinaryExtension()`: `'.exe'` exactly on `win32`. -/
def getBinaryExtension (ptype : String) : String :=
  if ptype = "win32" then ".exe" else ""

/-! ## Network model for `downloadBinary` -/

/-- An HTTP response as `downloadBinary` inspects it: the status code,
the `Location` header (when present) and the body delivered on a 200. -/
structure HttpResponse where
  statusCode : Nat
  location : Option String
  body : String
  deriving Repr, DecidableEq

/-- One network event per issued GET: either a response arrives or the
request emits a transport-level `'error'` event. -/
inductive NetEvent where
  | resp (r : HttpResponse)
  | transport (msg : String)
  deriving Repr, DecidableEq

/-- The destination file on disk: `none` when absent, otherwise its
content and permission bits. -/
abbrev FileState : Type := Option (String × Nat)

/-- Outcome of a `downloadBinary` promise: how it settled, the final
destination-file state, and the URLs requested, in order. -/
structure DownloadResult where
  result : Except String Unit
  file : FileState
  requests : List String

/-- `downloadBinary(url, dest)` from scripts/install.js, driven by the
trace of network events (head event answers the GET for `url`, the tail
drives recursive calls).

Each call first opens `fs.createWriteStream(dest)`, which creates (or
truncates) the destination as an empty file whose permission bits
`createMode` come from the environment (`0o666 & ~umask`; the script
never chooses them). Then:

* status 302 or 301 — recurse on the `Location` header target (a
  redirect without a `Location` header would make `https.get` throw on
  an undefined URL; traces in this development never exercise that
  branch, nor the empty trace, which models a GET that never settles);
* status other than 200 — reject with
  `Failed to download: HTTP <status>`; nothing removes the empty file
  the write stream created;
* status 200 — pipe the body into the file and resolve;
* transport `'error'` event — `fs.unlink(dest)` then reject. -/
def downloadBinary (createMode : Nat) : String → List NetEvent → DownloadResult
  | url, [] => ⟨Except.error "request never completed", some ("", createMode), [url]⟩
  | url, NetEvent.transport msg :: _ => ⟨Except.error msg, none, [url]⟩
  | url, NetEvent.resp r :: rest =>
    if r.statusCode = 302 ∨ r.statusCode = 301 then
      match r.location with
      | some loc =>
        let d := downloadBinary createMode loc rest
        ⟨d.result, d.file, url :: d.requests⟩
      | none => ⟨Except.error "ERR_INVALID_ARG_TYPE", some ("", createMode), [url]⟩
    else if r.statusCode ≠ 200 then
      ⟨Except.error ("Failed to download: HTTP " ++ toString r.statusCode),
        some ("", createMode), [url]⟩
    else
      ⟨Except.ok (), some (r.body, createMode), [url]⟩

/-! ## The `install` flow -/

/-- The download URL the script interpolates:
`https://github.com/REPO/releases/download/vVERSION/BINARY_NAME-PLATFORMEXT`. -/
def mkDownloadUrl (version platform ext : String) : String :=
  "https://github.com/" ++ REPO ++ "/releases/download/v" ++ version ++
    "/" ++ BINARY_NAME ++ "-" ++ platform ++ ext

/-- The `console.error` lines of the `catch` block of `install()`:
the failure banner followed by the three fallback options (cargo
install, build from source, report an issue). -/
def failureMessages (msg : String) : List String :=
  ["\n❌ Failed to download binary: " ++ msg ++ "\n",
   "Fallback options:",
   "1. Install via cargo (requires Rust):",
   "   cargo install portalis\n",
   "2. Build from source:",
   "   git clone https://github.com/portalis/portalis.git",
   "   cd portalis",
   "   cargo build --release --bin portalis\n",
   "3. Report this issue:",
   "   https://github.com/" ++ REPO ++ "/issues\n"]

/-- What running `node scripts/install.js` leaves behind: the process
exit status, the destination-file state, the `console.error` output and
the URLs requested. -/
structure InstallResult where
  exitCode : Nat
  file : FileState
  errLines : List String
  requests : List String

/-- `install()` from scripts/install.js. Arguments: the runtime
environment (`process.platform`, `process.arch`), the package version
read from package.json (the file itself is not part of this artifact),
the network trace, the permission bits the OS gives newly created
files, and the pre-existing destination-file state.

Flow: resolve the platform (`process.exit(1)` with the guidance when
unsupported — the exit fires before any file is touched); build the
download URL; run `downloadBinary`. On resolution, `chmodSync(path,
0o755)` unless `win32`, and the script ends with status 0. On
rejection, print the remediation guidance and `process.exit(0)`
(the destination file is left as the download left it). -/
def install (ptype arch version : String) (events : List NetEvent)
    (createMode : Nat) (initFile : FileState) : InstallResult :=
  match getPlatform ptype arch with
  | Except.error e => ⟨e.code, initFile, e.messages, []⟩
  | Except.ok platform =>
    let ext := getBinaryExtension ptype
    let url := mkDownloadUrl version platform ext
    let d := downloadBinary createMode url events
    match d.result with
    | Except.ok _ =>
      ⟨0,
        if ptype ≠ "win32" then d.file.map (fun fc => (fc.1, 0o755)) else d.file,
        [], d.requests⟩
    | Except.error msg => ⟨0, d.file, failureMessages msg, d.requests⟩

/-! ## Launcher embedding -/

/-- The `stdio` option passed to `spawn`. -/
inductive StdioMode where
  | inherit
  | pipe
  deriving Repr, DecidableEq

/-- The one `spawn` call index.js makes: command path, argument vector
and options. -/
structure SpawnCall where
  cmd : String
  args : List String
  stdio : StdioMode
  windowsHide : Bool
  deriving Repr, DecidableEq

/-- Static model of index.js (the Node entry point): the spawn call it
issues, which child events it registers handlers for, every line its
own code prints, and the `'exit'` handler.

`binPath` is `path.join(__dirname, 'bin', ...)`; the spawned arguments
are `process.argv.slice(2)` (argv drops the node executable and the
script path). index.js registers only an `'exit'` handler — no
`'error'` handler — and contains no console output. The exit handler
runs `process.exit(code)`, where Node treats a `null` code (the child
was terminated by a signal) as the default status 0. -/
structure NodeLauncher where
  spawnCall : SpawnCall
  registersExitHandler : Bool
  registersErrorHandler : Bool
  printed : List String
  exitHandler : Option Int → Int

/-- index.js as a function of `__dirname`, `process.platform` and
`process.argv`. -/
def indexJs (dirname ptype : String) (argv : List String) : NodeLauncher :=
  let binPath :=
    dirname ++ "/bin/" ++ (if ptype = "win32" then "portalis.exe" else "portalis")
  { spawnCall := ⟨binPath, argv.drop 2, StdioMode.inherit, true⟩
    registersExitHandler := true
    registersErrorHandler := false
    printed := []
    exitHandler := fun code => code.getD 0 }

/-- Outcome of running bin/portalis.cmd: the `exit /b` status, the
lines echoed, and whether the binary was invoked. -/
structure CmdResult where
  exitCode : Int
  echoed : List String
  ranBinary : Bool
  deriving Repr, DecidableEq

/-- bin/portalis.cmd (the Windows wrapper script): `%~dp0` is the
script's directory (`bindir`, with its trailing separator), the target
is `%bindir%portalis.exe`; when that file does not exist the script
echoes the error and the reinstall remediation and runs `exit /b 1`,
otherwise it runs the binary with all arguments and returns the
child's exit status. -/
def portalisCmd (bindir : String) (exeExists : Bool) (childExit : Int) : CmdResult :=
  let exe := bindir ++ "portalis.exe"
  if exeExists then ⟨childExit, [], true⟩
  else
    ⟨1,
      ["Error: Portalis binary not found at " ++ exe,
       "Try reinstalling: npm install -g portalis"],
      false⟩

/-! ## Statement-side definitions -/

/-- Following the spec's words (refinement target for the URL claim):
`<release-host>/<owner>/<repo>/releases/download/v<version>/<binary-name>-<platform-suffix><platform-extension>`. -/
def specDownloadUrl (releaseHost owner repo version binaryName suffix ext : String) :
    String :=
  releaseHost ++ "/" ++ owner ++ "/" ++ repo ++ "/releases/download/v" ++ version ++
    "/" ++ binaryName ++ "-" ++ suffix ++ ext

/-- A network trace made of redirect responses (status and `Location`
target, in order) followed by a terminal event. -/
def redirectChain (redirs : List (Nat × String)) (terminal : NetEvent) : List NetEvent :=
  redirs.map (fun p => NetEvent.resp ⟨p.1, some p.2, ""⟩) ++ [terminal]

/-! ## Helper lemmas about `downloadBinary` -/

/-- The first URL `downloadBinary` requests is the URL it was given. -/
theorem downloadBinary_requests_head (m : Nat) (url : String) (events : List NetEvent) :
    (downloadBinary m url events).requests.head? = some url := by
  cases events with
  | nil => rfl
  | cons e rest =>
    cases e with
    | transport msg => rfl
    | resp r =>
      simp only [downloadBinary]
      split
      · cases r.location <;> rfl
      · split <;> rfl

/-- How a download settles (and the final file state) does not depend
on the URL or on the creation mode, only on the network trace. -/
theorem downloadBinary_result_indep (events : List NetEvent) :
    ∀ (m m' : Nat) (url url' : String),
      (downloadBinary m url events).result = (downloadBinary m' url' events).result := by
  induction events with
  | nil => intro m m' url url'; rfl
  | cons e rest ih =>
    intro m m' url url'
    cases e with
    | transport msg => rfl
    | resp r =>
      simp only [downloadBinary]
      split
      · cases r.location with
        | none => rfl
        | some loc => simpa using ih m m' loc loc
      · split <;> rfl

/-- Running a full redirect chain that ends in an HTTP 200: every
`Location` target is requested in turn, the promise resolves, and the
file holds the body of the terminal 200 response. -/
theorem downloadBinary_chain_ok (m : Nat) (body : String) :
    ∀ (redirs : List (Nat × String)) (url : String),
      (∀ p ∈ redirs, p.1 = 301 ∨ p.1 = 302) →
      downloadBinary m url (redirectChain redirs (NetEvent.resp ⟨200, none, body⟩)) =
        ⟨Except.ok (), some (body, m), url :: redirs.map Prod.snd⟩ := by
  intro redirs
  induction redirs with
  | nil => intro url _; rfl
  | cons p rest ih =>
    intro url h
    have hp : p.1 = 301 ∨ p.1 = 302 := h p (List.mem_cons_self p rest)
    have hrest : ∀ q ∈ rest, q.1 = 301 ∨ q.1 = 302 :=
      fun q hq => h q (List.mem_cons_of_mem p hq)
    obtain ⟨s, loc⟩ := p
    simp only at hp
    have ihx := ih loc hrest
    simp only [redirectChain] at ihx
    simp only [redirectChain, List.map_cons, List.cons_append, downloadBinary]
    rcases hp with hp | hp <;> subst hp <;> simp [ihx]

/-- Running a full redirect chain that ends in a terminal non-success
status: the promise rejects with that status surfaced in the message,
and the empty file created by the write stream is left behind. -/
theorem downloadBinary_chain_fail (m status : Nat) (b : String)
    (h200 : status ≠ 200) (h301 : status ≠ 301) (h302 : status ≠ 302) :
    ∀ (redirs : List (Nat × String)) (url : String),
      (∀ p ∈ redirs, p.1 = 301 ∨ p.1 = 302) →
      (downloadBinary m url (redirectChain redirs (NetEvent.resp ⟨status, none, b⟩))).result =
          Except.error ("Failed to download: HTTP " ++ toString status) ∧
        (downloadBinary m url (redirectChain redirs (NetEvent.resp ⟨status, none, b⟩))).file =
          some ("", m) := by
  intro redirs
  induction redirs with
  | nil =>
    intro url _
    simp [redirectChain, downloadBinary, h200, h301, h302]
  | cons p rest ih =>
    intro url h
    have hp : p.1 = 301 ∨ p.1 = 302 := h p (List.mem_cons_self p rest)
    have hrest : ∀ q ∈ rest, q.1 = 301 ∨ q.1 = 302 :=
      fun q hq => h q (List.mem_cons_of_mem p hq)
    obtain ⟨s, loc⟩ := p
    simp only at hp
    have ihx := ih loc hrest
    simp only [redirectChain] at ihx
    simp only [redirectChain, List.map_cons, List.cons_append, downloadBinary]
    rcases hp with hp | hp <;> subst hp <;> simp [ihx.1, ihx.2]

/-- Running a redirect chain that ends in a transport-level error: the
promise rejects with the error and the file is unlinked. -/
theorem downloadBinary_chain_transport (m : Nat) (msg : String) :
    ∀ (redirs : List (Nat × String)) (url : String),
      (∀ p ∈ redirs, p.1 = 301 ∨ p.1 = 302) →
      (downloadBinary m url (redirectChain redirs (NetEvent.transport msg))).result =
          Except.error msg ∧
        (downloadBinary m url (redirectChain redirs (NetEvent.transport msg))).file = none := by
  intro redirs
  induction redirs with
  | nil => intro url _; exact ⟨rfl, rfl⟩
  | cons p rest ih =>
    intro url h
    have hp : p.1 = 301 ∨ p.1 = 302 := h p (List.mem_cons_self p rest)
    have hrest : ∀ q ∈ rest, q.1 = 301 ∨ q.1 = 302 :=
      fun q hq => h q (List.mem_cons_of_mem p hq)
    obtain ⟨s, loc⟩ := p
    simp only at hp
    have ihx := ih loc hrest
    simp only [redirectChain] at ihx
    simp only [redirectChain, List.map_cons, List.cons_append, downloadBinary]
    rcases hp with hp | hp <;> subst hp <;> simp [ihx.1, ihx.2]

/-! ## Helper lemmas about `install` -/

/-- On a supported platform the URLs `install` requests are exactly the
URLs of its `downloadBinary` run. -/
theorem install_requests (ptype arch version p : String) (events : List NetEvent)
    (m : Nat) (f : FileState) (hp : getPlatform ptype arch = Except.ok p) :
    (install ptype arch version events m f).requests =
      (downloadBinary m (mkDownloadUrl version p (getBinaryExtension ptype)) events).requests := by
  simp only [install, hp]
  split <;> rfl

/-- On a supported platform, when the download rejects, `install` exits
with status 0, prints the remediation guidance, and leaves the file as
the download left it. -/
theorem install_download_error (ptype arch version p msg : String)
    (events : List NetEvent) (m : Nat) (f : FileState)
    (hp : getPlatform ptype arch = Except.ok p)
    (hd : (downloadBinary m (mkDownloadUrl version p (getBinaryExtension ptype)) events).result =
      Except.error msg) :
    install ptype arch version events m f =
      ⟨0, (downloadBinary m (mkDownloadUrl version p (getBinaryExtension ptype)) events).file,
        failureMessages msg,
        (downloadBinary m (mkDownloadUrl version p (getBinaryExtension ptype)) events).requests⟩ := by
  simp only [install, hp, hd]

/-- On a supported platform, when the download resolves, `install`
exits with status 0, prints no error line, and applies the
`chmodSync(path, 0o755)` exactly when the platform is not `win32`. -/
theorem install_download_ok (ptype arch version p : String)
    (events : List NetEvent) (m : Nat) (f : FileState)
    (hp : getPlatform ptype arch = Except.ok p)
    (hd : (downloadBinary m (mkDownloadUrl version p (getBinaryExtension ptype)) events).result =
      Except.ok ()) :
    install ptype arch version events m f =
      ⟨0,
        if ptype ≠ "win32" then
          (downloadBinary m (mkDownloadUrl version p (getBinaryExtension ptype)) events).file.map
            (fun fc => (fc.1, 0o755))
        else (downloadBinary m (mkDownloadUrl version p (getBinaryExtension ptype)) events).file,
        [],
        (downloadBinary m (mkDownloadUrl version p (getBinaryExtension ptype)) events).requests⟩ := by
  simp only [install, hp, hd]

/-! ## Installer claims -/

/-- C3: for every supported platform key and every package version
string, the constructed download URL is exactly
`<release-host>/<owner>/<repo>/releases/download/v<version>/<binary-name>-<platform-suffix><platform-extension>`
with the mapped table suffix and with extension `.exe` exactly on the
Windows key (empty otherwise); the first GET of the install goes to
that URL. -/
theorem c3_download_url (version : String) (events : List NetEvent) (m : Nat)
    (f : FileState) :
    ((install "darwin" "x64" version events m f).requests.head? =
      some (specDownloadUrl "https://github.com" "portalis" "portalis" version
        "portalis" "macos-x86_64" "")) ∧
    ((install "darwin" "arm64" version events m f).requests.head? =
      some (specDownloadUrl "https://github.com" "portalis" "portalis" version
        "portalis" "macos-aarch64" "")) ∧
    ((install "linux" "x64" version events m f).requests.head? =
      some (specDownloadUrl "https://github.com" "portalis" "portalis" version
        "portalis" "linux-x86_64" "")) ∧
    ((install "linux" "arm64" version events m f).requests.head? =
      some (specDownloadUrl "https://github.com" "portalis" "portalis" version
        "portalis" "linux-aarch64" "")) ∧
    ((install "win32" "x64" version events m f).requests.head? =
      some (specDownloadUrl "https://github.com" "portalis" "portalis" version
        "portalis" "windows-x86_64" ".exe")) := by
  refine ⟨?_, ?_, ?_, ?_, ?_⟩
  · rw [install_requests "darwin" "x64" version "macos-x86_64" events m f rfl,
      downloadBinary_requests_head]
    simp [mkDownloadUrl, specDownloadUrl, REPO, BINARY_NAME, getBinaryExtension]
  · rw [install_requests "darwin" "arm64" version "macos-aarch64" events m f rfl,
      downloadBinary_requests_head]
    simp [mkDownloadUrl, specDownloadUrl, REPO, BINARY_NAME, getBinaryExtension]
  · rw [install_requests "linux" "x64" version "linux-x86_64" events m f rfl,
      downloadBinary_requests_head]
    simp [mkDownloadUrl, specDownloadUrl, REPO, BINARY_NAME, getBinaryExtension]
  · rw [install_requests "linux" "arm64" version "linux-aarch64" events m f rfl,
      downloadBinary_requests_head]
    simp [mkDownloadUrl, specDownloadUrl, REPO, BINARY_NAME, getBinaryExtension]
  · rw [install_requests "win32" "x64" version "windows-x86_64" events m f rfl,
      downloadBinary_requests_head]
    simp [mkDownloadUrl, specDownloadUrl, REPO, BINARY_NAME, getBinaryExtension]

/-- C4: for every redirect chain of arbitrary length (each step a 301
or 302 carrying a Location header) ending in a 200, the download
re-issues the GET against each Location target in turn and the final
file content is the body of the terminal 200; with a non-success
terminal status instead, the download rejects with that status code
surfaced in the error message. -/
theorem c4_redirect_chains (url body b : String) (m status : Nat)
    (redirs : List (Nat × String))
    (hr : ∀ p ∈ redirs, p.1 = 301 ∨ p.1 = 302)
    (h200 : status ≠ 200) (h301 : status ≠ 301) (h302 : status ≠ 302) :
    (downloadBinary m url (redirectChain redirs (NetEvent.resp ⟨200, none, body⟩)) =
      ⟨Except.ok (), some (body, m), url :: redirs.map Prod.snd⟩) ∧
    ((downloadBinary m url (redirectChain redirs (NetEvent.resp ⟨status, none, b⟩))).result =
      Except.error ("Failed to download: HTTP " ++ toString status)) :=
  ⟨downloadBinary_chain_ok m body redirs url hr,
   (downloadBinary_chain_fail m status b h200 h301 h302 redirs url hr).1⟩

/-- C4 witness: a two-hop chain (302 then 301) ending in a 200 resolves
with the terminal body after requesting both Location targets, and the
same chain ending in a 404 rejects with HTTP 404 surfaced. -/
theorem c4_redirect_chains_witness :
    (downloadBinary 420 "https://github.com/a"
        (redirectChain [(302, "https://cdn.example/b"), (301, "https://cdn.example/c")]
          (NetEvent.resp ⟨200, none, "binary-bytes"⟩)) =
      ⟨Except.ok (), some ("binary-bytes", 420),
        ["https://github.com/a", "https://cdn.example/b", "https://cdn.example/c"]⟩) ∧
    ((downloadBinary 420 "https://github.com/a"
        (redirectChain [(302, "https://cdn.example/b"), (301, "https://cdn.example/c")]
          (NetEvent.resp ⟨404, none, ""⟩))).result =
      Except.error ("Failed to download: HTTP " ++ toString 404)) := by
  have h := c4_redirect_chains "https://github.com/a" "binary-bytes" "" 420 404
    [(302, "https://cdn.example/b"), (301, "https://cdn.example/c")]
    (by decide) (by decide) (by decide) (by decide)
  simpa using h

/-- C1 counterexample: on the unsupported platform key freebsd-x64 the
postinstall step terminates with exit status 1, not the non-failing
(success) status the claim requires — `getPlatform` calls
`process.exit(1)`, which aborts the surrounding npm install. -/
theorem c1_counterexample :
    (install "freebsd" "x64" "0.1.0" [] 420 none).exitCode = 1 ∧
    ¬ (install "freebsd" "x64" "0.1.0" [] 420 none).exitCode = 0 := by
  constructor <;> decide

/-- C1 amended: for every platform key absent from the mapping, the
installer prints the full list of supported platform keys and the
source-build instructions and then terminates the postinstall step with
exit status 1 — a failing status that does abort the surrounding
package manager's install transaction — leaving the destination file
untouched. -/
theorem c1_unsupported_platform (ptype arch version : String)
    (events : List NetEvent) (m : Nat) (f : FileState)
    (h : lookupPlatform (ptype ++ "-" ++ arch) = none) :
    (install ptype arch version events m f).exitCode = 1 ∧
    (install ptype arch version events m f).errLines = unsupportedMessages ptype arch ∧
    (∀ p ∈ PLATFORM_MAP,
      ("  - " ++ p.1) ∈ (install ptype arch version events m f).errLines) ∧
    ("  git clone https://github.com/portalis/portalis.git" ∈
      (install ptype arch version events m f).errLines) ∧
    (install ptype arch version events m f).file = f := by
  have hg : getPlatform ptype arch = Except.error ⟨1, unsupportedMessages ptype arch⟩ := by
    simp [getPlatform, h]
  simp only [install, hg]
  refine ⟨by trivial, by trivial, ?_, ?_, by trivial⟩
  · intro p hp
    simp only [unsupportedMessages, List.append_assoc, List.mem_append, List.mem_map]
    exact Or.inr (Or.inl ⟨p, hp, rfl⟩)
  · simp [unsupportedMessages]

/-- C1 witness: freebsd-x64 is absent from the mapping and the
postinstall step then exits with status 1. -/
theorem c1_unsupported_platform_witness :
    lookupPlatform ("freebsd" ++ "-" ++ "x64") = none ∧
    (install "freebsd" "x64" "0.1.0" [] 420 none).exitCode = 1 :=
  ⟨rfl, (c1_unsupported_platform "freebsd" "x64" "0.1.0" [] 420 (none : FileState) rfl).1⟩

/-- C2: for every download failure of any kind (non-success HTTP status
or transport error) on a supported platform, the installer prints the
remediation guidance — the cargo alternative, the source-build steps
and the issue-reporting link — and exits the postinstall process with
the success status 0. -/
theorem c2_download_failure_swallowed (ptype arch version p msg : String)
    (events : List NetEvent) (m : Nat) (f : FileState)
    (hp : getPlatform ptype arch = Except.ok p)
    (hd : (downloadBinary 0 "" events).result = Except.error msg) :
    (install ptype arch version events m f).exitCode = 0 ∧
    (install ptype arch version events m f).errLines = failureMessages msg ∧
    ("   cargo install portalis\n" ∈ (install ptype arch version events m f).errLines) ∧
    ("   git clone https://github.com/portalis/portalis.git" ∈
      (install ptype arch version events m f).errLines) ∧
    ("   https://github.com/portalis/portalis/issues\n" ∈
      (install ptype arch version events m f).errLines) := by
  have hd' : (downloadBinary m (mkDownloadUrl version p (getBinaryExtension ptype)) events).result =
      Except.error msg :=
    (downloadBinary_result_indep events m 0
      (mkDownloadUrl version p (getBinaryExtension ptype)) "").trans hd
  rw [install_download_error ptype arch version p msg events m f hp hd']
  refine ⟨rfl, rfl, ?_, ?_, ?_⟩ <;> simp [failureMessages, REPO]

/-- C2 witness: on linux-x64 a terminal HTTP 404 is swallowed — the
postinstall step exits with status 0 and prints the remediation
guidance. -/
theorem c2_download_failure_swallowed_witness :
    getPlatform "linux" "x64" = Except.ok "linux-x86_64" ∧
    (downloadBinary 0 "" [NetEvent.resp ⟨404, none, ""⟩]).result =
      Except.error ("Failed to download: HTTP 404") ∧
    (install "linux" "x64" "0.1.0" [NetEvent.resp ⟨404, none, ""⟩] 420 none).exitCode = 0 :=
  ⟨rfl, rfl,
    (c2_download_failure_swallowed "linux" "x64" "0.1.0" "linux-x86_64"
      ("Failed to download: HTTP 404") [NetEvent.resp ⟨404, none, ""⟩] 420
      (none : FileState) rfl rfl).1⟩

/-- C5 counterexample: a download answered by a terminal HTTP 404
fails, yet an empty file is left on disk at the destination path —
`createWriteStream` created it and the non-success-status branch never
unlinks it (only the transport-error handler does), so the claim's
"no binary file (partial or empty) is left on disk" is false. -/
theorem c5_counterexample :
    (install "linux" "x64" "0.1.0" [NetEvent.resp ⟨404, none, ""⟩] 420 none).file =
      some ("", 420) ∧
    (install "linux" "x64" "0.1.0" [NetEvent.resp ⟨404, none, ""⟩] 420 none).errLines =
      failureMessages ("Failed to download: HTTP 404") := by
  constructor <;> rfl

/-- C5 amended: on a transport-level download error the partial file is
deleted before failure is reported, but on a non-success terminal HTTP
status (such as 404) the failure is reported with the empty file the
write stream created still present at the destination path. -/
theorem c5_cleanup (url msg b : String) (m status : Nat)
    (redirs : List (Nat × String))
    (hr : ∀ p ∈ redirs, p.1 = 301 ∨ p.1 = 302)
    (h200 : status ≠ 200) (h301 : status ≠ 301) (h302 : status ≠ 302) :
    ((downloadBinary m url (redirectChain redirs (NetEvent.transport msg))).result =
        Except.error msg ∧
      (downloadBinary m url (redirectChain redirs (NetEvent.transport msg))).file = none) ∧
    ((downloadBinary m url (redirectChain redirs (NetEvent.resp ⟨status, none, b⟩))).result =
        Except.error ("Failed to download: HTTP " ++ toString status) ∧
      (downloadBinary m url (redirectChain redirs (NetEvent.resp ⟨status, none, b⟩))).file =
        some ("", m)) :=
  ⟨downloadBinary_chain_transport m msg redirs url hr,
   downloadBinary_chain_fail m status b h200 h301 h302 redirs url hr⟩

/-- C5 witness: a transport error leaves no file behind, while a
terminal HTTP 404 leaves the empty file at the destination. -/
theorem c5_cleanup_witness :
    ((downloadBinary 420 "https://github.com/a"
        (redirectChain [] (NetEvent.transport "read ECONNRESET"))).file = none) ∧
    ((downloadBinary 420 "https://github.com/a"
        (redirectChain [] (NetEvent.resp ⟨404, none, ""⟩))).file = some ("", 420)) := by
  have h := c5_cleanup "https://github.com/a" "read ECONNRESET" "" 420 404 []
    (by decide) (by decide) (by decide) (by decide)
  exact ⟨h.1.2, h.2.2⟩

/-- C6: after every successful download (any well-formed redirect chain
ending in a 200) on each non-Windows supported platform the installer
sets the binary's permission bits to mode 0o755 — which includes the
owner-execute bit 0o100 — while on the Windows key no permission change
is made: the file keeps the bits the OS gave it at creation. -/
theorem c6_chmod (version body : String) (m : Nat) (f : FileState)
    (redirs : List (Nat × String))
    (hr : ∀ p ∈ redirs, p.1 = 301 ∨ p.1 = 302) :
    ((install "darwin" "x64" version
        (redirectChain redirs (NetEvent.resp ⟨200, none, body⟩)) m f).file =
      some (body, 0o755)) ∧
    ((install "darwin" "arm64" version
        (redirectChain redirs (NetEvent.resp ⟨200, none, body⟩)) m f).file =
      some (body, 0o755)) ∧
    ((install "linux" "x64" version
        (redirectChain redirs (NetEvent.resp ⟨200, none, body⟩)) m f).file =
      some (body, 0o755)) ∧
    ((install "linux" "arm64" version
        (redirectChain redirs (NetEvent.resp ⟨200, none, body⟩)) m f).file =
      some (body, 0o755)) ∧
    ((install "win32" "x64" version
        (redirectChain redirs (NetEvent.resp ⟨200, none, body⟩)) m f).file =
      some (body, m)) ∧
    0o755 &&& 0o100 = 0o100 := by
  have step : ∀ ptype arch p : String, getPlatform ptype arch = Except.ok p →
      (install ptype arch version
        (redirectChain redirs (NetEvent.resp ⟨200, none, body⟩)) m f).file =
        (if ptype ≠ "win32" then some (body, 0o755) else some (body, m)) := by
    intro ptype arch p hp
    have hok := downloadBinary_chain_ok m body redirs
      (mkDownloadUrl version p (getBinaryExtension ptype)) hr
    rw [install_download_ok ptype arch version p
      (redirectChain redirs (NetEvent.resp ⟨200, none, body⟩)) m f hp (by rw [hok])]
    by_cases hw : ptype = "win32"
    · subst hw; simp [hok]
    · simp [hw, hok]
  refine ⟨?_, ?_, ?_, ?_, ?_, by decide⟩
  · rw [step "darwin" "x64" "macos-x86_64" rfl]; simp
  · rw [step "darwin" "arm64" "macos-aarch64" rfl]; simp
  · rw [step "linux" "x64" "linux-x86_64" rfl]; simp
  · rw [step "linux" "arm64" "linux-aarch64" rfl]; simp
  · rw [step "win32" "x64" "windows-x86_64" rfl]; simp

/-- C6 witness: a direct 200 download on linux-x64 installs the binary
with mode 0o755, and the same download on win32-x64 leaves the creation
mode 0o644 untouched. -/
theorem c6_chmod_witness :
    ((install "linux" "x64" "0.1.0"
        (redirectChain [] (NetEvent.resp ⟨200, none, "binary-bytes"⟩)) 0o644 none).file =
      some ("binary-bytes", 0o755)) ∧
    ((install "win32" "x64" "0.1.0"
        (redirectChain [] (NetEvent.resp ⟨200, none, "binary-bytes"⟩)) 0o644 none).file =
      some ("binary-bytes", 0o644)) := by
  have h := c6_chmod "0.1.0" "binary-bytes" 0o644 (none : FileState) [] (by decide)
  exact ⟨h.2.2.1, h.2.2.2.2.1⟩

/-! ## Launcher claims -/

/-- C8: for every child process spawned by the launcher that terminates
with a representable exit code, the launcher's own exit code equals the
child's exit code exactly, including non-zero values (the `'exit'`
handler calls `process.exit` on the code the child delivered). -/
theorem c8_exit_code_propagation (dirname ptype : String) (argv : List String)
    (code : Int) :
    (indexJs dirname ptype argv).exitHandler (some code) = code := rfl

/-- C9: for every ordered sequence of command-line arguments given to
the launcher, it spawns the installed binary with exactly those
arguments in the same order and no others, with the parent's standard
streams fully inherited by the child. -/
theorem c9_argument_passthrough (dirname ptype nodeExe script : String)
    (userArgs : List String) :
    (indexJs dirname ptype (nodeExe :: script :: userArgs)).spawnCall.args = userArgs ∧
    (indexJs dirname ptype (nodeExe :: script :: userArgs)).spawnCall.stdio =
      StdioMode.inherit := by
  constructor <;> simp [indexJs]

/-- C10: when the spawned child is terminated by a signal rather than a
normal exit, the `'exit'` handler receives a `null` code and the
launcher exits with status 0, reporting success to the calling shell. -/
theorem c10_signal_exit_zero (dirname ptype : String) (argv : List String) :
    (indexJs dirname ptype argv).exitHandler none = 0 := rfl

/-- C7 counterexample: the Node entry point (index.js) prints nothing
at all — in particular no actionable error naming the expected binary
path when that binary is missing — and registers no `'error'` handler
on the spawned child, so a missing binary surfaces as Node's default
unhandled spawn-error crash, not as the diagnostic the claim
requires. -/
theorem c7_counterexample :
    (indexJs "/usr/lib/node_modules/portalis" "linux"
        ["/usr/bin/node", "/usr/lib/node_modules/portalis/index.js", "--version"]).printed
        = [] ∧
    (indexJs "/usr/lib/node_modules/portalis" "linux"
        ["/usr/bin/node", "/usr/lib/node_modules/portalis/index.js", "--version"]).registersErrorHandler
        = false :=
  ⟨rfl, rfl⟩

/-- C7 amended: when the expected binary does not exist, the Windows
wrapper script (bin/portalis.cmd) prints an error naming the expected
binary path and the reinstall remediation and terminates with exit code
1 without invoking the binary; the Node entry point (index.js),
however, performs no existence check of its own — it prints no
diagnostic and registers no spawn-error handler, so there a missing
binary surfaces as an unhandled spawn error rather than the actionable
message. -/
theorem c7_missing_binary (bindir : String) (childExit : Int)
    (dirname ptype : String) (argv : List String) :
    ((portalisCmd bindir false childExit).exitCode = 1 ∧
     (portalisCmd bindir false childExit).exitCode ≠ 0 ∧
     (portalisCmd bindir false childExit).echoed =
       ["Error: Portalis binary not found at " ++ (bindir ++ "portalis.exe"),
        "Try reinstalling: npm install -g portalis"] ∧
     (portalisCmd bindir false childExit).ranBinary = false) ∧
    ((indexJs dirname ptype argv).printed = [] ∧
     (indexJs dirname ptype argv).registersErrorHandler = false) := by
  refine ⟨⟨rfl, by simp [portalisCmd], rfl, rfl⟩, rfl, rfl⟩

end Portalis
